import Mathlib

/-!
Verification development for the libmicrocompute GPU compute layer.

The repository source under verification is `src/microcompute.h` (type
definitions, the debug-severity enum, and the declared API surface) together
with the behaviour documented for each entry point. The implementation
translation unit of the library is not present in the sources; where a
definition below embeds behaviour that only the missing implementation could
decide, its doc comment starts with `Modelled from the spec:` and the
definition follows the specification's words (which agree with the doc
comments in `microcompute.h`).
-/

set_option autoImplicit false

namespace Microcompute

/-- Debug message severity level, from the `mc_DebugLevel` enum in
`microcompute.h` (values INFO, LOW, MEDIUM, HIGH declared in this order,
so the underlying C integer values are 0, 1, 2, 3). -/
inductive mc_DebugLevel where
  | INFO
  | LOW
  | MEDIUM
  | HIGH
deriving DecidableEq, Repr

/-- The underlying C integer value of a severity level, determined by the
declaration order of the enum constants in `microcompute.h`. -/
def mc_DebugLevel.toNat : mc_DebugLevel → Nat
  | .INFO => 0
  | .LOW => 1
  | .MEDIUM => 2
  | .HIGH => 3

/-- A diagnostic message routed to the debug callback: a severity level and a
message text, as in the callback signature
`void (*callback)(mc_DebugLevel, char *, void *)`. -/
structure Report where
  level : mc_DebugLevel
  text : String
deriving DecidableEq, Repr

/-- Modelled from the spec: the implementation of `mc_default_debug_callback`
is not under `src/` (only its declaration and doc comment in `microcompute.h`
are). Per the header doc, it prints messages whose severity is at least the
value pointed to by `arg` (the lowest severity to print); per the
`mc_set_debug_callback` doc, a `NULL` `arg` prints all messages. The `arg`
pointer is modelled as an `Option` threshold and the printing side effect as
the returned `Bool` (true iff the message is printed). -/
def mc_default_debug_callback (level : mc_DebugLevel) (message : String)
    (arg : Option mc_DebugLevel) : Bool :=
  match message, arg with
  | _, none => true
  | _, some threshold => decide (threshold.toNat ≤ level.toNat)

/-- Modelled from the spec: the Buffer object's fields are not under `src/`
(`mc_Buffer` is opaque in `microcompute.h`). A buffer owns a binding slot and
a GPU memory region of bytes, modelled as a list of byte values. -/
structure mc_Buffer where
  binding : Int
  data : List Nat
deriving DecidableEq, Repr

/-- Modelled from the spec: implementation not under `src/`. Returns the
current size of the buffer in bytes. -/
def mc_buffer_get_size (b : mc_Buffer) : Nat :=
  b.data.length

/-- Modelled from the spec: implementation not under `src/`. Changes the
binding slot of the buffer, touching nothing else. -/
def mc_buffer_rebind (b : mc_Buffer) (binding : Int) : mc_Buffer :=
  { b with binding := binding }

/-- Modelled from the spec: implementation not under `src/`. Reallocates the
storage to the new size; prior contents are not preserved (the fresh storage
is modelled as zero bytes, standing for arbitrary invalidated contents). -/
def mc_buffer_resize (b : mc_Buffer) (size : Nat) : mc_Buffer :=
  { b with data := List.replicate size 0 }

/-- Modelled from the spec: implementation not under `src/`. Per the header
doc of `mc_buffer_write`: copies `size` bytes from `data` into the buffer
starting at byte offset `off`; if `off + size` is larger than the size of the
buffer the call fails, returning 0, transferring nothing and reporting a
diagnostic (HIGH severity per the spec's error taxonomy); on success it
returns `size`. Result: updated buffer, returned byte count, emitted
reports. -/
def mc_buffer_write (b : mc_Buffer) (off size : Nat) (data : List Nat) :
    mc_Buffer × Nat × List Report :=
  if off + size > b.data.length then
    (b, 0, [⟨.HIGH, "mc_buffer_write: offset + size > buffer size"⟩])
  else
    ({ b with
        data := b.data.take off ++ (data.take size ++ b.data.drop (off + size)) },
      size, [])

/-- Modelled from the spec: implementation not under `src/`. Per the header
doc of `mc_buffer_read`: copies `size` bytes from the buffer starting at byte
offset `off` into caller memory; if `off + size` is larger than the size of
the buffer the call fails, returning 0, transferring nothing and reporting a
diagnostic; on success it returns `size`. Result: bytes placed in the
caller's destination, returned byte count, emitted reports. -/
def mc_buffer_read (b : mc_Buffer) (off size : Nat) :
    List Nat × Nat × List Report :=
  if off + size > b.data.length then
    ([], 0, [⟨.HIGH, "mc_buffer_read: offset + size > buffer size"⟩])
  else
    ((b.data.drop off).take size, size, [])

/-- C1: for every buffer and every in-bounds pair (offset, size), writing
`size` bytes at `offset` and then reading `size` bytes at `offset` yields
exactly the written bytes, and both calls return `size`. -/
theorem buffer_write_then_read_roundtrip (b : mc_Buffer) (off size : Nat)
    (data : List Nat) (hle : off + size ≤ mc_buffer_get_size b)
    (hdl : data.length = size) :
    (mc_buffer_write b off size data).2.1 = size ∧
    (mc_buffer_read (mc_buffer_write b off size data).1 off size).2.1 = size ∧
    (mc_buffer_read (mc_buffer_write b off size data).1 off size).1 = data := by
  subst hdl
  simp only [mc_buffer_get_size] at hle
  have hguard : ¬ off + data.length > b.data.length := not_lt.mpr hle
  have hoff : off ≤ b.data.length :=
    le_trans (Nat.le_add_right off data.length) hle
  have htl : (b.data.take off).length = off := by
    simp [List.length_take, Nat.min_eq_left hoff]
  have hwrite : mc_buffer_write b off data.length data =
      ({ b with
          data := b.data.take off ++ (data ++ b.data.drop (off + data.length)) },
        data.length, []) := by
    simp [mc_buffer_write, hguard, List.take_length]
  have hlen :
      (b.data.take off ++ (data ++ b.data.drop (off + data.length))).length
        = b.data.length := by
    simp only [List.length_append, List.length_take, List.length_drop]
    omega
  have hguard2 : ¬ off + data.length >
      (b.data.take off ++ (data ++ b.data.drop (off + data.length))).length := by
    rw [hlen]; exact hguard
  have hread : mc_buffer_read
      { b with
          data := b.data.take off ++ (data ++ b.data.drop (off + data.length)) }
      off data.length = (data, data.length, []) := by
    simp only [mc_buffer_read]
    rw [if_neg hguard2, List.drop_left' htl, List.take_left]
  rw [hwrite, hread]
  exact ⟨rfl, rfl, rfl⟩

/-- Concrete instance of the round-trip law: write then read of two bytes at
offset 1 in a four-byte buffer. -/
theorem buffer_write_then_read_roundtrip_witness :
    (1 + 2 ≤ mc_buffer_get_size ⟨0, [5, 5, 5, 5]⟩ ∧
      ([9, 8] : List Nat).length = 2) ∧
    ((mc_buffer_write ⟨0, [5, 5, 5, 5]⟩ 1 2 [9, 8]).2.1 = 2 ∧
      (mc_buffer_read (mc_buffer_write ⟨0, [5, 5, 5, 5]⟩ 1 2 [9, 8]).1 1 2).2.1
        = 2 ∧
      (mc_buffer_read (mc_buffer_write ⟨0, [5, 5, 5, 5]⟩ 1 2 [9, 8]).1 1 2).1
        = [9, 8]) :=
  ⟨⟨by decide, by decide⟩,
    buffer_write_then_read_roundtrip ⟨0, [5, 5, 5, 5]⟩ 1 2 [9, 8]
      (by decide) (by decide)⟩

/-- C2: for every buffer and every out-of-bounds pair (offset, size), write
and read both return 0, transfer nothing, leave the buffer unchanged and emit
a diagnostic; moreover the return value of either call is always either 0 or
`size`, never a partial count. -/
theorem buffer_out_of_bounds_rejected (b : mc_Buffer) (off size : Nat)
    (data : List Nat) (hgt : off + size > mc_buffer_get_size b) :
    (mc_buffer_write b off size data).1 = b ∧
    (mc_buffer_write b off size data).2.1 = 0 ∧
    (mc_buffer_write b off size data).2.2 ≠ [] ∧
    (mc_buffer_read b off size).1 = [] ∧
    (mc_buffer_read b off size).2.1 = 0 ∧
    (mc_buffer_read b off size).2.2 ≠ [] ∧
    (∀ b2 o2 s2 d2, (mc_buffer_write b2 o2 s2 d2).2.1 = 0 ∨
      (mc_buffer_write b2 o2 s2 d2).2.1 = s2) ∧
    (∀ b2 o2 s2, (mc_buffer_read b2 o2 s2).2.1 = 0 ∨
      (mc_buffer_read b2 o2 s2).2.1 = s2) := by
  simp only [mc_buffer_get_size] at hgt
  refine ⟨?_, ?_, ?_, ?_, ?_, ?_, ?_, ?_⟩
  · simp [mc_buffer_write, hgt]
  · simp [mc_buffer_write, hgt]
  · simp [mc_buffer_write, hgt]
  · simp [mc_buffer_read, hgt]
  · simp [mc_buffer_read, hgt]
  · simp [mc_buffer_read, hgt]
  · intro b2 o2 s2 d2
    by_cases h : o2 + s2 > b2.data.length
    · left; simp [mc_buffer_write, h]
    · right; simp [mc_buffer_write, h]
  · intro b2 o2 s2
    by_cases h : o2 + s2 > b2.data.length
    · left; simp [mc_buffer_read, h]
    · right; simp [mc_buffer_read, h]

/-- Concrete instance of the bounds-failure policy: a 16-byte transfer at
offset 32 on a 40-byte buffer (32 + 16 = 48 > 40) is rejected. -/
theorem buffer_out_of_bounds_rejected_witness :
    (32 + 16 > mc_buffer_get_size ⟨1, List.replicate 40 0⟩) ∧
    ((mc_buffer_write ⟨1, List.replicate 40 0⟩ 32 16 [7]).1
        = ⟨1, List.replicate 40 0⟩ ∧
      (mc_buffer_write ⟨1, List.replicate 40 0⟩ 32 16 [7]).2.1 = 0) :=
  ⟨by decide,
    ((buffer_out_of_bounds_rejected ⟨1, List.replicate 40 0⟩ 32 16 [7]
        (by decide)).1),
    ((buffer_out_of_bounds_rejected ⟨1, List.replicate 40 0⟩ 32 16 [7]
        (by decide)).2.1)⟩

/-- C3: immediately after resizing a buffer to `s'`, its reported size is
`s'` (there is no other state in the buffer model that a resize could depend
on, matching independence from dispatch state). -/
theorem buffer_resize_then_get_size (b : mc_Buffer) (s' : Nat) :
    mc_buffer_get_size (mc_buffer_resize b s') = s' := by
  simp [mc_buffer_get_size, mc_buffer_resize]

/-- C7: rebinding a buffer changes exactly the binding slot: the reported
size is unchanged and every read observes the same bytes, return value and
diagnostics as before. -/
theorem buffer_rebind_only_changes_binding (b : mc_Buffer) (n : Int) :
    (mc_buffer_rebind b n).binding = n ∧
    mc_buffer_get_size (mc_buffer_rebind b n) = mc_buffer_get_size b ∧
    ∀ off size, mc_buffer_read (mc_buffer_rebind b n) off size
      = mc_buffer_read b off size := by
  refine ⟨rfl, rfl, ?_⟩
  intro off size
  simp [mc_buffer_read, mc_buffer_rebind]

/-- Modelled from the spec: the Program object's fields are not under `src/`
(`mc_Program` is opaque in `microcompute.h`). A program owns a compiled
kernel, carrying the kernel's table of active uniforms (name to driver
location, an opaque capability of the driver) and the per-program cache of
resolved uniform locations, lazily populated. -/
structure mc_Program where
  activeUniforms : List (String × Int)
  cache : List (String × Int)
deriving DecidableEq, Repr

/-- Modelled from the spec: resolution of a uniform name to a location.
The per-program cache is consulted first; on a miss the driver's active
uniform table is queried and a hit is cached. An unresolvable name yields
no location and leaves the program unchanged. -/
def resolveUniform (p : mc_Program) (name : String) :
    Option Int × mc_Program :=
  match p.cache.lookup name with
  | some loc => (some loc, p)
  | none =>
    match p.activeUniforms.lookup name with
    | some loc => (some loc, { p with cache := (name, loc) :: p.cache })
    | none => (none, p)

/-- Modelled from the spec: implementation not under `src/`. The uniform
setters (`mc_program_set_float` and the 20 other typed variants) all resolve
`name` via `resolveUniform` and then push the value into the kernel state
(fire-and-forget, so the pushed value is not part of the program state);
an unresolvable name returns `false` with a diagnostic and is non-fatal.
Result: success flag, updated program, emitted reports. -/
def mc_program_set_float (p : mc_Program) (name : String) (value : Float) :
    Bool × mc_Program × List Report :=
  match value, resolveUniform p name with
  | _, (some _, p') => (true, p', [])
  | _, (none, p') =>
    (false, p', [⟨.HIGH, "uniform not found"⟩])

/-- C4: a set call on a name that resolves neither in the cache nor among the
kernel's active uniforms returns false, reports a diagnostic, leaves the
program (in particular every cached location) unchanged, and any subsequent
set call on a resolvable name still succeeds. -/
theorem set_uniform_unresolved_nonfatal (p : mc_Program) (name : String)
    (v : Float) (hc : p.cache.lookup name = none)
    (ha : p.activeUniforms.lookup name = none) :
    (mc_program_set_float p name v).1 = false ∧
    (mc_program_set_float p name v).2.1 = p ∧
    (mc_program_set_float p name v).2.2 ≠ [] ∧
    ∀ name2 v2,
      (p.cache.lookup name2).isSome ∨ (p.activeUniforms.lookup name2).isSome →
      (mc_program_set_float (mc_program_set_float p name v).2.1 name2 v2).1
        = true := by
  have hres : resolveUniform p name = (none, p) := by
    simp [resolveUniform, hc, ha]
  refine ⟨?_, ?_, ?_, ?_⟩
  · simp [mc_program_set_float, hres]
  · simp [mc_program_set_float, hres]
  · simp [mc_program_set_float, hres]
  · intro name2 v2 h2
    have hp1 : (mc_program_set_float p name v).2.1 = p := by
      simp [mc_program_set_float, hres]
    rw [hp1]
    rcases h2 with h2 | h2
    · rcases Option.isSome_iff_exists.mp h2 with ⟨loc, hloc⟩
      simp [mc_program_set_float, resolveUniform, hloc]
    · rcases Option.isSome_iff_exists.mp h2 with ⟨loc, hloc⟩
      cases hcc : p.cache.lookup name2 with
      | some l => simp [mc_program_set_float, resolveUniform, hcc]
      | none => simp [mc_program_set_float, resolveUniform, hcc, hloc]

/-- Concrete instance of C4: setting "nonexistent" on a program whose kernel
has the single active uniform "validName" fails and leaves the program
unchanged, and a following set of "validName" succeeds. -/
theorem set_uniform_unresolved_nonfatal_witness :
    ((mc_Program.mk [("validName", 3)] []).cache.lookup "nonexistent" = none ∧
      (mc_Program.mk [("validName", 3)] []).activeUniforms.lookup "nonexistent"
        = none) ∧
    ((mc_program_set_float (mc_Program.mk [("validName", 3)] [])
        "nonexistent" 1.0).1 = false ∧
      (mc_program_set_float
        (mc_program_set_float (mc_Program.mk [("validName", 3)] [])
          "nonexistent" 1.0).2.1 "validName" 2.0).1 = true) := by
  refine ⟨⟨by decide, by decide⟩, ?_, ?_⟩
  · exact (set_uniform_unresolved_nonfatal (mc_Program.mk [("validName", 3)] [])
      "nonexistent" 1.0 (by decide) (by decide)).1
  · exact (set_uniform_unresolved_nonfatal (mc_Program.mk [("validName", 3)] [])
      "nonexistent" 1.0 (by decide) (by decide)).2.2.2 "validName" 2.0
      (Or.inr (by decide))

/-- Modelled from the spec: the underlying graphics driver and the host file
system are external collaborators reached through a fixed set of primitive
operations. `compile` takes kernel source text and yields either the compiled
kernel's active uniform table or the driver's compiler log; `fileContents`
takes a path and yields the file's full contents when the read succeeds. -/
structure DriverEnv where
  compile : String → Except String (List (String × Int))
  fileContents : String → Option String

/-- Modelled from the spec: implementation of `mc_program_from_str` not under
`src/`. Compiles the given kernel source text; on a compilation error it
reports a HIGH-severity diagnostic carrying the driver's compiler log and
returns no program. Result: created program (if any) and emitted reports. -/
def mc_program_from_str (env : DriverEnv) (programCode : String) :
    Option mc_Program × List Report :=
  match env.compile programCode with
  | .ok uniforms => (some ⟨uniforms, []⟩, [])
  | .error log => (none, [⟨.HIGH, log⟩])

/-- Modelled from the spec: implementation of `mc_program_from_file` not
under `src/`. Reads the file fully and then behaves as
`mc_program_from_str` on the contents; a read failure is reported and yields
no program. -/
def mc_program_from_file (env : DriverEnv) (filePath : String) :
    Option mc_Program × List Report :=
  match env.fileContents filePath with
  | some contents => mc_program_from_str env contents
  | none => (none, [⟨.HIGH, "could not read file"⟩])

/-- C5: when compilation of the source text fails with log `log`, program
creation from the string returns no program and emits a HIGH-severity report
carrying the compiler log. -/
theorem program_from_str_compile_failure (env : DriverEnv) (code log : String)
    (h : env.compile code = .error log) :
    (mc_program_from_str env code).1 = none ∧
    ∃ r ∈ (mc_program_from_str env code).2,
      r.level = mc_DebugLevel.HIGH ∧ r.text = log := by
  refine ⟨?_, ?_⟩
  · simp [mc_program_from_str, h]
  · exact ⟨⟨.HIGH, log⟩, by simp [mc_program_from_str, h], rfl, rfl⟩

/-- Concrete instance of C5 on a driver that rejects every source with the
log "syntax error". -/
theorem program_from_str_compile_failure_witness :
    (DriverEnv.mk (fun _ => .error "syntax error") (fun _ => none)).compile
        "bad code" = .error "syntax error" ∧
    (mc_program_from_str
        (DriverEnv.mk (fun _ => .error "syntax error") (fun _ => none))
        "bad code").1 = none :=
  ⟨rfl,
    (program_from_str_compile_failure
        (DriverEnv.mk (fun _ => .error "syntax error") (fun _ => none))
        "bad code" "syntax error" rfl).1⟩

/-- C6: when the file read succeeds, program creation from the path behaves
exactly as program creation from the file's contents (same resulting program
and same diagnostics); when the read fails, the call yields no program and
reports the failure. -/
theorem program_from_file_refines_from_str (env : DriverEnv)
    (filePath : String) :
    (∀ contents, env.fileContents filePath = some contents →
      mc_program_from_file env filePath = mc_program_from_str env contents) ∧
    (env.fileContents filePath = none →
      (mc_program_from_file env filePath).1 = none ∧
      (mc_program_from_file env filePath).2 ≠ []) := by
  refine ⟨?_, ?_⟩
  · intro contents hsome
    simp [mc_program_from_file, hsome]
  · intro hnone
    simp [mc_program_from_file, hnone]

/-- Concrete instance of C6: a one-file file system where path "k" holds
"src" (compiled successfully by a driver accepting everything), and any
other path fails to read. -/
theorem program_from_file_refines_from_str_witness :
    (mc_program_from_file
        (DriverEnv.mk (fun _ => .ok [])
          (fun p => if p = "k" then some "src" else none)) "k"
      = mc_program_from_str
          (DriverEnv.mk (fun _ => .ok [])
            (fun p => if p = "k" then some "src" else none)) "src") ∧
    ((mc_program_from_file
        (DriverEnv.mk (fun _ => .ok [])
          (fun p => if p = "k" then some "src" else none)) "missing").1
        = none ∧
      (mc_program_from_file
        (DriverEnv.mk (fun _ => .ok [])
          (fun p => if p = "k" then some "src" else none)) "missing").2
        ≠ []) :=
  ⟨(program_from_file_refines_from_str
      (DriverEnv.mk (fun _ => .ok [])
        (fun p => if p = "k" then some "src" else none)) "k").1 "src" rfl,
    (program_from_file_refines_from_str
      (DriverEnv.mk (fun _ => .ok [])
        (fun p => if p = "k" then some "src" else none)) "missing").2 rfl⟩

/-- C9: the default debug callback with a threshold prints a message exactly
when the message's severity is at least the threshold, under the severity
order INFO < LOW < MEDIUM < HIGH fixed by the enum declaration order; with
no threshold pointer it prints every message unconditionally. -/
theorem default_debug_callback_prints_iff (level : mc_DebugLevel)
    (msg : String) (t : mc_DebugLevel) :
    (mc_default_debug_callback level msg (some t) = true ↔
      t.toNat ≤ level.toNat) ∧
    mc_default_debug_callback level msg none = true ∧
    (mc_DebugLevel.INFO.toNat < mc_DebugLevel.LOW.toNat ∧
      mc_DebugLevel.LOW.toNat < mc_DebugLevel.MEDIUM.toNat ∧
      mc_DebugLevel.MEDIUM.toNat < mc_DebugLevel.HIGH.toNat) := by
  refine ⟨?_, rfl, by decide⟩
  simp [mc_default_debug_callback]

/-- Matrix value type from `microcompute.h`: 2x2, a 4-element float array and
a transpose flag (true means the values are in row-major order, false means
column-major, as passed to the driver's uniform-matrix primitive). -/
structure mc_mat22 where
  values : Fin 4 → Float
  transpose : Bool

/-- Matrix value type from `microcompute.h`: 3x3, 9 float elements. -/
structure mc_mat33 where
  values : Fin 9 → Float
  transpose : Bool

/-- Matrix value type from `microcompute.h`: 4x4, 16 float elements. -/
structure mc_mat44 where
  values : Fin 16 → Float
  transpose : Bool

/-- Matrix value type from `microcompute.h`: 2x3, 6 float elements. -/
structure mc_mat23 where
  values : Fin 6 → Float
  transpose : Bool

/-- Matrix value type from `microcompute.h`: 3x2, 6 float elements. -/
structure mc_mat32 where
  values : Fin 6 → Float
  transpose : Bool

/-- Matrix value type from `microcompute.h`: 2x4, 8 float elements. -/
structure mc_mat24 where
  values : Fin 8 → Float
  transpose : Bool

/-- Matrix value type from `microcompute.h`: 4x2, 8 float elements. -/
structure mc_mat42 where
  values : Fin 8 → Float
  transpose : Bool

/-- Matrix value type from `microcompute.h`: 3x4, 12 float elements. -/
structure mc_mat34 where
  values : Fin 12 → Float
  transpose : Bool

/-- Matrix value type from `microcompute.h`: 4x3, 12 float elements. -/
structure mc_mat43 where
  values : Fin 12 → Float
  transpose : Bool

/-- The nine matrix shapes `mc_matCR` declared in `microcompute.h`. -/
inductive MatShape where
  | m22
  | m33
  | m44
  | m23
  | m32
  | m24
  | m42
  | m34
  | m43
deriving DecidableEq, Repr

/-- First dimension digit of the shape's type name `mc_matCR`. -/
def matCols : MatShape → Nat
  | .m22 => 2
  | .m33 => 3
  | .m44 => 4
  | .m23 => 2
  | .m32 => 3
  | .m24 => 2
  | .m42 => 4
  | .m34 => 3
  | .m43 => 4

/-- Second dimension digit of the shape's type name `mc_matCR`. -/
def matRows : MatShape → Nat
  | .m22 => 2
  | .m33 => 3
  | .m44 => 4
  | .m23 => 3
  | .m32 => 2
  | .m24 => 4
  | .m42 => 2
  | .m34 => 4
  | .m43 => 3

/-- The declared length of the `values` array of each matrix struct in
`microcompute.h` (float values[4], [9], [16], [6], [6], [8], [8], [12],
[12]). -/
def matValuesLen : MatShape → Nat
  | .m22 => 4
  | .m33 => 9
  | .m44 => 16
  | .m23 => 6
  | .m32 => 6
  | .m24 => 8
  | .m42 => 8
  | .m34 => 12
  | .m43 => 12

/-- The Lean type embedding each matrix struct. -/
def matType : MatShape → Type
  | .m22 => mc_mat22
  | .m33 => mc_mat33
  | .m44 => mc_mat44
  | .m23 => mc_mat23
  | .m32 => mc_mat32
  | .m24 => mc_mat24
  | .m42 => mc_mat42
  | .m34 => mc_mat34
  | .m43 => mc_mat43

/-- The `values` field of each matrix struct; that this definition
typechecks ties the element count `matValuesLen` to the structs above. -/
def matValues : (s : MatShape) → matType s → Fin (matValuesLen s) → Float
  | .m22, m => m.values
  | .m33, m => m.values
  | .m44, m => m.values
  | .m23, m => m.values
  | .m32, m => m.values
  | .m24, m => m.values
  | .m42, m => m.values
  | .m34, m => m.values
  | .m43, m => m.values

/-- The `transpose` field of each matrix struct (true means row-major order
of the backing array, false means column-major). -/
def matTranspose : (s : MatShape) → matType s → Bool
  | .m22, m => m.transpose
  | .m33, m => m.transpose
  | .m44, m => m.transpose
  | .m23, m => m.transpose
  | .m32, m => m.transpose
  | .m24, m => m.transpose
  | .m42, m => m.transpose
  | .m34, m => m.transpose
  | .m43, m => m.transpose

/-- C10: every matrix type `mc_matCR` carries exactly C x R float elements
(4, 9, 16, 6, 6, 8, 8, 12, 12 for the nine shapes) alongside its boolean
transpose flag. -/
theorem mat_values_len_is_cols_times_rows :
    (∀ s : MatShape, matValuesLen s = matCols s * matRows s) ∧
    matValuesLen .m22 = 4 ∧ matValuesLen .m33 = 9 ∧
    matValuesLen .m44 = 16 ∧ matValuesLen .m23 = 6 ∧
    matValuesLen .m32 = 6 ∧ matValuesLen .m24 = 8 ∧
    matValuesLen .m42 = 8 ∧ matValuesLen .m34 = 12 ∧
    matValuesLen .m43 = 12 := by
  refine ⟨?_, rfl, rfl, rfl, rfl, rfl, rfl, rfl, rfl, rfl⟩
  intro s
  cases s <;> rfl

/-- The typed uniform setter entry points declared in `microcompute.h`
(`mc_program_set_float` through `mc_program_set_mat43`), in declaration
order. -/
inductive UniformSetter where
  | set_float
  | set_vec2
  | set_vec3
  | set_vec4
  | set_int
  | set_ivec2
  | set_ivec3
  | set_ivec4
  | set_uint
  | set_uvec2
  | set_uvec3
  | set_uvec4
  | set_mat22
  | set_mat33
  | set_mat44
  | set_mat23
  | set_mat32
  | set_mat24
  | set_mat42
  | set_mat34
  | set_mat43
deriving DecidableEq, Repr

/-- Classification of a setter by the shape of the value it takes. -/
inductive UniformKind where
  | scalar
  | vector
  | matrix
deriving DecidableEq, Repr

/-- The kind of value each declared setter takes, read off its C parameter
type in `microcompute.h`. -/
def setterKind : UniformSetter → UniformKind
  | .set_float => .scalar
  | .set_vec2 => .vector
  | .set_vec3 => .vector
  | .set_vec4 => .vector
  | .set_int => .scalar
  | .set_ivec2 => .vector
  | .set_ivec3 => .vector
  | .set_ivec4 => .vector
  | .set_uint => .scalar
  | .set_uvec2 => .vector
  | .set_uvec3 => .vector
  | .set_uvec4 => .vector
  | .set_mat22 => .matrix
  | .set_mat33 => .matrix
  | .set_mat44 => .matrix
  | .set_mat23 => .matrix
  | .set_mat32 => .matrix
  | .set_mat24 => .matrix
  | .set_mat42 => .matrix
  | .set_mat34 => .matrix
  | .set_mat43 => .matrix

/-- All uniform setter entry points declared in `microcompute.h`, in their
declaration order. -/
def allUniformSetters : List UniformSetter :=
  [.set_float, .set_vec2, .set_vec3, .set_vec4,
    .set_int, .set_ivec2, .set_ivec3, .set_ivec4,
    .set_uint, .set_uvec2, .set_uvec3, .set_uvec4,
    .set_mat22, .set_mat33, .set_mat44, .set_mat23, .set_mat32,
    .set_mat24, .set_mat42, .set_mat34, .set_mat43]

/-- The number of typed uniform setter entry points in the header. -/
def numUniformSetters : Nat :=
  allUniformSetters.length

/-- C8 counterexample: the header does not declare 19 uniform setter entry
points; counting the declarations `mc_program_set_float` through
`mc_program_set_mat43` gives 21 (3 scalars + 9 vectors + 9 matrices). -/
theorem num_uniform_setters_ne_19 : ¬ numUniformSetters = 19 := by
  decide

/-- C8 (amended): the uniform setter surface consists of exactly 21 typed
entry points, each listed once (`allUniformSetters` enumerates every setter
without repetition): float, int and unsigned-int scalars (3), 2/3/4-component
vectors of each (9), and the 9 matrix shapes, each matrix value carrying its
row-major/column-major transpose flag; there is no generic or variadic
setter beyond these. -/
theorem uniform_setter_surface_is_21_typed_entry_points :
    numUniformSetters = 21 ∧
    allUniformSetters.Nodup ∧
    (∀ s : UniformSetter, s ∈ allUniformSetters) ∧
    (allUniformSetters.filter
      (fun s => setterKind s = UniformKind.scalar)).length = 3 ∧
    (allUniformSetters.filter
      (fun s => setterKind s = UniformKind.vector)).length = 9 ∧
    (allUniformSetters.filter
      (fun s => setterKind s = UniformKind.matrix)).length = 9 := by
  refine ⟨rfl, by decide, ?_, by decide, by decide, by decide⟩
  intro s
  cases s <;> decide

end Microcompute
